import Mathlib

/-!
Shallow embedding of `src/lib/fourthwall/index.ts` (a storefront API client).

The module's effects are modelled explicitly:
  * `fetch` (plus the subsequent `result.json()` parse, which sits inside the
    same `try` block) is an oracle `HttpRequest → FetchResult β`: it either
    yields a parsed response `(status, body)` or fails with an opaque cause
    string, covering both network and JSON-parse failure.
  * A constructed URL is kept structural: a base URL string plus the ordered
    list of appended query parameters (`URL.searchParams.append` order), so
    that parameter order and presence are first-class.
  * Each public operation returns the list of HTTP requests it issued (its
    trace) alongside its result; `console.warn` output is returned as a list
    of warning strings where the source logs.
  * The reshape layer (`reshapeCart`, `reshapeProduct`, `reshapeProducts`,
    imported from `./reshape`) is an external collaborator never inspected by
    `index.ts`; it is passed in as a function parameter, and the provider body
    types `FourthwallProduct` / `FourthwallCart` that `index.ts` never looks
    into are type parameters.
  * `API_URL` and `STOREFRONT_TOKEN` (environment configuration resolved at
    load time) are a `Config` record threaded through the operations.
-/

namespace Fourthwall

/-- Configuration read once from the environment: `API_URL` and
`STOREFRONT_TOKEN` in the source. -/
structure Config where
  apiUrl : String
  storefrontToken : String
  deriving DecidableEq

/-- A query-parameter value before `.toString()`: the source's
`Record<string, string | number | undefined>` carries strings and numbers
(the `undefined` case is the surrounding `Option`). -/
inductive QueryValue where
  | str (s : String)
  | num (n : Int)
  deriving DecidableEq

/-- Models JavaScript `.toString()` on a query value. -/
def QueryValue.render : QueryValue → String
  | .str s => s
  | .num n => toString n

/-- The slice of `RequestInit` this module exercises: an optional `method`
override, an optional `cache` directive, and extra headers. -/
structure RequestInit where
  method : Option String
  cache : Option String
  headers : List (String × String)
  deriving DecidableEq

/-- The default `options = {}` argument of both helpers. -/
def RequestInit.empty : RequestInit := ⟨none, none, []⟩

/-- The `{ cache: 'no-store' }` options object passed by the cart
operations. -/
def noStore : RequestInit := ⟨none, some "no-store", []⟩

/-- One element of the `items` array in a POST body: `variantId` with an
optional `quantity` (`removeFromCart` omits the quantity field). -/
structure PostItem where
  variantId : String
  quantity : Option Int
  deriving DecidableEq

/-- Every POST body of this module has the shape `{ items: [...] }`. -/
structure PostBody where
  items : List PostItem
  deriving DecidableEq

/-- JavaScript object-spread merge `{ ...base, ...overrides }` for string
maps: keys of `base` keep their position but take the override's value;
override-only keys follow. -/
def mergeAssoc (base overrides : List (String × String)) : List (String × String) :=
  base.map (fun kv => (kv.1, (overrides.lookup kv.1).getD kv.2)) ++
    overrides.filter (fun kv => (base.lookup kv.1).isNone)

/-- An outbound HTTP request as handed to `fetch`: base URL, appended query
parameters in order, effective method, cache directive, merged headers, and
the JSON body for POSTs. -/
structure HttpRequest where
  baseUrl : String
  queryParams : List (String × String)
  method : String
  cache : Option String
  headers : List (String × String)
  body : Option PostBody
  deriving DecidableEq

/-- Outcome of one `fetch` + `result.json()` round trip: a parsed response,
or a failure with its opaque cause. -/
inductive FetchResult (β : Type) where
  | ok (status : Nat) (body : β)
  | err (cause : String)

/-- The `{ status, body }` pair both helpers resolve with. -/
structure Response (β : Type) where
  status : Nat
  body : β

/-- The object thrown by `fourthwallGet` on failure: `{ error: e, url }`. -/
structure GetThrow where
  error : String
  url : String
  deriving DecidableEq

/-- The object thrown by `fourthwallPost` on failure:
`{ error: e, url, data }`. -/
structure PostThrow where
  error : String
  url : String
  data : PostBody
  deriving DecidableEq

/-- The `Object.keys(query).forEach` loop of `fourthwallGet`: append each
defined query parameter, rendered with `.toString()`, in key order; skip
`undefined` values. -/
def appendParams (initial : List (String × String))
    (query : List (String × Option QueryValue)) : List (String × String) :=
  query.foldl
    (fun ps kv =>
      match kv.2 with
      | some v => ps ++ [(kv.1, v.render)]
      | none => ps)
    initial

/-- `fourthwallGet(url, query, options)`: build the URL (defined query
parameters in order, then `storefront_token`), issue a GET (options may
override the method; headers merge over a JSON content type), and either
return `{status, body}` or throw `{error, url}`. The issued request is
returned alongside the outcome. -/
def fourthwallGet {β : Type} (cfg : Config) (url : String)
    (query : List (String × Option QueryValue)) (options : RequestInit)
    (fetch : HttpRequest → FetchResult β) :
    HttpRequest × Except GetThrow (Response β) :=
  let req : HttpRequest :=
    ⟨url,
      appendParams [] query ++ [("storefront_token", cfg.storefrontToken)],
      options.method.getD "GET",
      options.cache,
      mergeAssoc [("Content-Type", "application/json")] options.headers,
      none⟩
  (req,
    match fetch req with
    | .ok s b => Except.ok ⟨s, b⟩
    | .err c => Except.error ⟨c, url⟩)

/-- `fourthwallPost(url, data, options)`: append the token as the sole query
parameter (`url?storefront_token=...`), issue a POST with the serialized
`data`, and either return `{status, body}` or throw `{error, url, data}`. -/
def fourthwallPost {β : Type} (cfg : Config) (url : String) (data : PostBody)
    (options : RequestInit) (fetch : HttpRequest → FetchResult β) :
    HttpRequest × Except PostThrow (Response β) :=
  let req : HttpRequest :=
    ⟨url,
      [("storefront_token", cfg.storefrontToken)],
      options.method.getD "POST",
      options.cache,
      mergeAssoc [("Content-Type", "application/json")] options.headers,
      some data⟩
  (req,
    match fetch req with
    | .ok s b => Except.ok ⟨s, b⟩
    | .err c => Except.error ⟨c, url, data⟩)

/-- Fields of a provider collection record that `getCollections` reads. -/
structure FourthwallCollection where
  slug : String
  name : String
  description : String
  deriving DecidableEq

/-- Body of the collections listing endpoint: `{ results: [...] }`. -/
structure CollectionsBody where
  results : List FourthwallCollection
  deriving DecidableEq

/-- The canonical `Collection` domain shape. -/
structure Collection where
  handle : String
  title : String
  description : String
  deriving DecidableEq

/-- Body of the collection-products endpoint; `results` is `none` when the
field is absent (or `null`), which is exactly when `!res.body.results`
holds in the source (a present empty array is `some []`, which is truthy). -/
structure ProductsBody (π : Type) where
  results : Option (List π)

/-- Input line for `addToCart`: `{ merchandiseId, quantity }`. -/
structure AddLine where
  merchandiseId : String
  quantity : Int
  deriving DecidableEq

/-- Input line for `updateCart`: `{ id, merchandiseId, quantity }`. -/
structure UpdateLine where
  id : String
  merchandiseId : String
  quantity : Int
  deriving DecidableEq

/-- `getCollections()`: GET the collections listing with no query
parameters, then map each record to `{handle: slug, title: name,
description}`. -/
def getCollections (cfg : Config)
    (fetch : HttpRequest → FetchResult CollectionsBody) :
    List HttpRequest × Except GetThrow (List Collection) :=
  let r := fourthwallGet cfg (cfg.apiUrl ++ "/api/public/v1.0/collections") []
    RequestInit.empty fetch
  ([r.1],
    r.2.map (fun res => res.body.results.map
      (fun collection => ⟨collection.slug, collection.name, collection.description⟩)))

/-- `getCollectionProducts({collection, currency, limit})`: GET the
collection's products with `currency` and optional `limit`; if the body has
no `results` field, warn and return `[]`; otherwise reshape the results.
The middle component is the list of `console.warn` messages emitted. -/
def getCollectionProducts {π ρ : Type} (cfg : Config)
    (reshapeProducts : List π → List ρ)
    (collection : String) (currency : String) (limit : Option Int)
    (fetch : HttpRequest → FetchResult (ProductsBody π)) :
    List HttpRequest × List String × Except GetThrow (List ρ) :=
  let r := fourthwallGet cfg
    (cfg.apiUrl ++ "/v1/collections/" ++ collection ++ "/products")
    [("currency", some (QueryValue.str currency)),
     ("limit", limit.map QueryValue.num)]
    RequestInit.empty fetch
  match r.2 with
  | Except.error e => ([r.1], [], Except.error e)
  | Except.ok res =>
    match res.body.results with
    | none =>
      ([r.1], ["No collection found for `" ++ collection ++ "`"], Except.ok [])
    | some results => ([r.1], [], Except.ok (reshapeProducts results))

/-- `getProduct({handle, currency})`: GET the single-product endpoint with
`currency` and reshape the body. -/
def getProduct {π ρ : Type} (cfg : Config) (reshapeProduct : π → Option ρ)
    (handle : String) (currency : String)
    (fetch : HttpRequest → FetchResult π) :
    List HttpRequest × Except GetThrow (Option ρ) :=
  let r := fourthwallGet cfg (cfg.apiUrl ++ "/v1/products/" ++ handle)
    [("currency", some (QueryValue.str currency))] RequestInit.empty fetch
  ([r.1], r.2.map (fun res => reshapeProduct res.body))

/-- JavaScript falsiness of `cartId : string | undefined`: true for
`undefined` and for the empty string — the guard `if (!cartId)`. -/
def isFalsyString : Option String → Bool
  | none => true
  | some s => s == ""

/-- `getCart(cartId, currency)`: short-circuit to `undefined` on a falsy
`cartId`; otherwise GET the cart with `currency` and `cache: 'no-store'`
and reshape the body. -/
def getCart {κ γ : Type} (cfg : Config) (reshapeCart : κ → γ)
    (cartId : Option String) (currency : String)
    (fetch : HttpRequest → FetchResult κ) :
    List HttpRequest × Except GetThrow (Option γ) :=
  if isFalsyString cartId then
    ([], Except.ok none)
  else
    let r := fourthwallGet cfg (cfg.apiUrl ++ "/v1/carts/" ++ cartId.getD "")
      [("currency", some (QueryValue.str currency))] noStore fetch
    ([r.1], r.2.map (fun res => some (reshapeCart res.body)))

/-- `createCart()`: POST `{ items: [] }` to the cart-creation endpoint with
the helper's default options (no third argument is passed in the source),
and reshape the body. -/
def createCart {κ γ : Type} (cfg : Config) (reshapeCart : κ → γ)
    (fetch : HttpRequest → FetchResult κ) :
    List HttpRequest × Except PostThrow γ :=
  let r := fourthwallPost cfg (cfg.apiUrl ++ "/v1/carts") ⟨[]⟩
    RequestInit.empty fetch
  ([r.1], r.2.map (fun res => reshapeCart res.body))

/-- `addToCart(cartId, lines)`: map each line to `{variantId:
merchandiseId, quantity}` and POST `{ items }` to `/v1/carts/{cartId}/add`
with `cache: 'no-store'`. -/
def addToCart {κ γ : Type} (cfg : Config) (reshapeCart : κ → γ)
    (cartId : String) (lines : List AddLine)
    (fetch : HttpRequest → FetchResult κ) :
    List HttpRequest × Except PostThrow γ :=
  let items := lines.map (fun line => PostItem.mk line.merchandiseId (some line.quantity))
  let r := fourthwallPost cfg (cfg.apiUrl ++ "/v1/carts/" ++ cartId ++ "/add")
    ⟨items⟩ noStore fetch
  ([r.1], r.2.map (fun res => reshapeCart res.body))

/-- `removeFromCart(cartId, lineIds)`: map each id to `{variantId: id}`
(no quantity) and POST `{ items }` to `/v1/carts/{cartId}/remove` with
`cache: 'no-store'`. -/
def removeFromCart {κ γ : Type} (cfg : Config) (reshapeCart : κ → γ)
    (cartId : String) (lineIds : List String)
    (fetch : HttpRequest → FetchResult κ) :
    List HttpRequest × Except PostThrow γ :=
  let items := lineIds.map (fun id => PostItem.mk id none)
  let r := fourthwallPost cfg (cfg.apiUrl ++ "/v1/carts/" ++ cartId ++ "/remove")
    ⟨items⟩ noStore fetch
  ([r.1], r.2.map (fun res => reshapeCart res.body))

/-- `updateCart(cartId, lines)`: map each line to `{variantId:
merchandiseId, quantity}` — the line's `id` is not used — and POST
`{ items }` to `/v1/carts/{cartId}/change` with `cache: 'no-store'`. -/
def updateCart {κ γ : Type} (cfg : Config) (reshapeCart : κ → γ)
    (cartId : String) (lines : List UpdateLine)
    (fetch : HttpRequest → FetchResult κ) :
    List HttpRequest × Except PostThrow γ :=
  let items := lines.map (fun line => PostItem.mk line.merchandiseId (some line.quantity))
  let r := fourthwallPost cfg (cfg.apiUrl ++ "/v1/carts/" ++ cartId ++ "/change")
    ⟨items⟩ noStore fetch
  ([r.1], r.2.map (fun res => reshapeCart res.body))

/-- Concrete configuration used by witnesses and counterexamples: the
source's default API URL with a sample token. -/
def cfgEx : Config := ⟨"https://storefront-api.fourthwall.com", "ptkn"⟩

/-- A transport oracle that always succeeds with a unit body. -/
def fetchUnitOk : HttpRequest → FetchResult Unit := fun _ => FetchResult.ok 200 ()

/-- Identity reshape on a unit cart body, for concrete instantiations. -/
def idUnit : Unit → Unit := fun u => u

/-- A transport oracle that always fails with the given cause. -/
def errFetch (β : Type) (cause : String) : HttpRequest → FetchResult β :=
  fun _ => FetchResult.err cause

/-- The `forEach` append loop equals: initial parameters, then exactly the
defined query parameters in mapping order (undefined values omitted). -/
theorem appendParams_eq (query : List (String × Option QueryValue))
    (initial : List (String × String)) :
    appendParams initial query
      = initial ++ query.filterMap (fun kv => kv.2.map (fun v => (kv.1, v.render))) := by
  induction query generalizing initial with
  | nil => simp [appendParams]
  | cons kv rest ih =>
    cases hv : kv.2 with
    | none =>
      have hstep : appendParams initial (kv :: rest) = appendParams initial rest := by
        simp [appendParams, hv]
      rw [hstep, ih]
      simp [List.filterMap_cons, hv]
    | some v =>
      have hstep : appendParams initial (kv :: rest)
          = appendParams (initial ++ [(kv.1, v.render)]) rest := by
        simp [appendParams, hv]
      rw [hstep, ih]
      simp [List.filterMap_cons, hv]

/-- C10: for the empty-string cartId, `getCart` resolves to `undefined`
without issuing any network call, for every configuration, reshape
collaborator, currency and transport: the guard tests falsiness, so the
empty string behaves like an absent id. -/
theorem C10_getCart_empty_string {κ γ : Type} (cfg : Config) (reshapeCart : κ → γ)
    (currency : String) (fetch : HttpRequest → FetchResult κ) :
    getCart cfg reshapeCart (some "") currency fetch = ([], Except.ok none) := rfl

/-- C5: when the provider body lacks a `results` field,
`getCollectionProducts` logs exactly one warning and returns the empty
sequence without raising; when `results` is present it returns the reshaped
products of that field with no warning. -/
theorem C5_getCollectionProducts_soft_miss {π ρ : Type} (cfg : Config)
    (reshapeProducts : List π → List ρ) (collection currency : String)
    (limit : Option Int) (s : Nat) (results : List π) :
    ((getCollectionProducts cfg reshapeProducts collection currency limit
        (fun _ => FetchResult.ok s ⟨none⟩)).2
      = (["No collection found for `" ++ collection ++ "`"], Except.ok [])) ∧
    ((getCollectionProducts cfg reshapeProducts collection currency limit
        (fun _ => FetchResult.ok s ⟨some results⟩)).2
      = ([], Except.ok (reshapeProducts results))) :=
  ⟨rfl, rfl⟩

/-- C6: `getCollections` returns exactly the provider results mapped
elementwise to `{handle: slug, title: name, description}`, preserving
length and order (the i-th output is the mapped i-th input), and the empty
results list yields the empty sequence. -/
theorem C6_getCollections_exact_map (cfg : Config) (s : Nat)
    (results : List FourthwallCollection) (i : Nat) :
    ((getCollections cfg (fun _ => FetchResult.ok s ⟨results⟩)).2
      = Except.ok (results.map
          (fun c => Collection.mk c.slug c.name c.description))) ∧
    ((results.map (fun c => Collection.mk c.slug c.name c.description)).length
      = results.length) ∧
    ((results.map (fun c => Collection.mk c.slug c.name c.description))[i]?
      = results[i]?.map (fun c => Collection.mk c.slug c.name c.description)) ∧
    ((getCollections cfg (fun _ => FetchResult.ok s ⟨[]⟩)).2 = Except.ok []) := by
  refine ⟨rfl, by simp, by simp, rfl⟩

/-- C2: `updateCart` transmits each line as exactly `{variantId:
merchandiseId, quantity}`: the issued request body is the elementwise map,
and the body is invariant under changing the lines' own ids (two line lists
agreeing on merchandiseId and quantity produce identical request bodies). -/
theorem C2_updateCart_payload {κ γ : Type} (cfg : Config) (reshapeCart : κ → γ)
    (fetch : HttpRequest → FetchResult κ) (cartId : String)
    (lines : List UpdateLine) :
    ((updateCart cfg reshapeCart cartId lines fetch).1.map HttpRequest.body
      = [some ⟨lines.map (fun line => PostItem.mk line.merchandiseId (some line.quantity))⟩]) ∧
    (∀ lines2 : List UpdateLine,
      lines.map (fun line => (line.merchandiseId, line.quantity))
        = lines2.map (fun line => (line.merchandiseId, line.quantity)) →
      (updateCart cfg reshapeCart cartId lines fetch).1.map HttpRequest.body
        = (updateCart cfg reshapeCart cartId lines2 fetch).1.map HttpRequest.body) := by
  constructor
  · rfl
  · intro lines2 h
    have h2 : lines.map (fun line => PostItem.mk line.merchandiseId (some line.quantity))
        = lines2.map (fun line => PostItem.mk line.merchandiseId (some line.quantity)) := by
      have h3 := congrArg (List.map (fun p : String × Int => PostItem.mk p.1 (some p.2))) h
      simpa [List.map_map, Function.comp] using h3
    simp [updateCart, fourthwallPost, h2]

/-- C2 witness: two concrete line lists differing only in their own ids
produce the same request body. -/
theorem C2_witness :
    (updateCart cfgEx idUnit "cart1" [UpdateLine.mk "line-a" "v1" 2]
        fetchUnitOk).1.map HttpRequest.body
      = (updateCart cfgEx idUnit "cart1" [UpdateLine.mk "line-b" "v1" 2]
          fetchUnitOk).1.map HttpRequest.body :=
  (C2_updateCart_payload cfgEx idUnit fetchUnitOk "cart1"
    [UpdateLine.mk "line-a" "v1" 2]).2 [UpdateLine.mk "line-b" "v1" 2] (by decide)

/-- C8: `addToCart` issues exactly one POST to
`{apiUrl}/v1/carts/{cartId}/add` with `cache: 'no-store'` and body
`{items: lines mapped to {variantId: merchandiseId, quantity}}`, preserving
input order and length, and returns the reshaped body on success. -/
theorem C8_addToCart_request {κ γ : Type} (cfg : Config) (reshapeCart : κ → γ)
    (fetch : HttpRequest → FetchResult κ) (cartId : String)
    (lines : List AddLine) (s : Nat) (b : κ) :
    ((addToCart cfg reshapeCart cartId lines fetch).1
      = [HttpRequest.mk (cfg.apiUrl ++ "/v1/carts/" ++ cartId ++ "/add")
          [("storefront_token", cfg.storefrontToken)] "POST" (some "no-store")
          [("Content-Type", "application/json")]
          (some (PostBody.mk (lines.map
            (fun line => PostItem.mk line.merchandiseId (some line.quantity)))))]) ∧
    ((lines.map (fun line => PostItem.mk line.merchandiseId (some line.quantity))).length
      = lines.length) ∧
    ((addToCart cfg reshapeCart cartId lines (fun _ => FetchResult.ok s b)).2
      = Except.ok (reshapeCart b)) := by
  refine ⟨rfl, by simp, rfl⟩

/-- C9: `removeFromCart` issues exactly one POST to
`{apiUrl}/v1/carts/{cartId}/remove` whose body maps each line id to
`{variantId: id}` with no quantity on any item, preserving input order and
length. -/
theorem C9_removeFromCart_request {κ γ : Type} (cfg : Config) (reshapeCart : κ → γ)
    (fetch : HttpRequest → FetchResult κ) (cartId : String) (lineIds : List String)
    (s : Nat) (b : κ) :
    ((removeFromCart cfg reshapeCart cartId lineIds fetch).1
      = [HttpRequest.mk (cfg.apiUrl ++ "/v1/carts/" ++ cartId ++ "/remove")
          [("storefront_token", cfg.storefrontToken)] "POST" (some "no-store")
          [("Content-Type", "application/json")]
          (some (PostBody.mk (lineIds.map (fun id => PostItem.mk id none))))]) ∧
    ((lineIds.map (fun id => PostItem.mk id none)).map PostItem.quantity
      = lineIds.map (fun _ => none)) ∧
    ((lineIds.map (fun id => PostItem.mk id none)).length = lineIds.length) ∧
    ((removeFromCart cfg reshapeCart cartId lineIds (fun _ => FetchResult.ok s b)).2
      = Except.ok (reshapeCart b)) := by
  refine ⟨rfl, by simp [Function.comp_def], by simp, rfl⟩

/-- C7: the GET helper's constructed URL is the base resource URL followed
by exactly the defined query parameters in mapping order (undefined values
omitted) and then the storefront token as the final query parameter; both
the GET and the POST helper's outbound requests carry the token. -/
theorem C7_url_construction_and_token {β : Type} (cfg : Config) (url : String)
    (query : List (String × Option QueryValue)) (options : RequestInit)
    (fetch : HttpRequest → FetchResult β) (data : PostBody) :
    ((fourthwallGet cfg url query options fetch).1.baseUrl = url) ∧
    ((fourthwallGet cfg url query options fetch).1.queryParams
      = query.filterMap (fun kv => kv.2.map (fun v => (kv.1, v.render)))
        ++ [("storefront_token", cfg.storefrontToken)]) ∧
    ((fourthwallGet cfg url query options fetch).1.queryParams.getLast?
      = some ("storefront_token", cfg.storefrontToken)) ∧
    (("storefront_token", cfg.storefrontToken)
      ∈ (fourthwallGet cfg url query options fetch).1.queryParams) ∧
    (("storefront_token", cfg.storefrontToken)
      ∈ (fourthwallPost cfg url data options fetch).1.queryParams) := by
  refine ⟨rfl, ?_, ?_, ?_, ?_⟩
  · show appendParams [] query ++ [("storefront_token", cfg.storefrontToken)] = _
    rw [appendParams_eq]
    simp
  · show (appendParams [] query
      ++ [("storefront_token", cfg.storefrontToken)]).getLast? = _
    simp
  · show ("storefront_token", cfg.storefrontToken)
      ∈ appendParams [] query ++ [("storefront_token", cfg.storefrontToken)]
    simp
  · show ("storefront_token", cfg.storefrontToken)
      ∈ [("storefront_token", cfg.storefrontToken)]
    simp

/-- C1 counterexample: `createCart` passes no options to the POST helper,
so its issued request carries no cache directive — refuting the claim that
every cart mutation's request options contain `cache: 'no-store'`. -/
theorem C1_counterexample :
    (createCart cfgEx idUnit fetchUnitOk).1.map HttpRequest.cache
      ≠ [some "no-store"] := by
  decide

/-- C1 (amended): `addToCart`, `removeFromCart` and `updateCart` each issue
their single POST with `cache: 'no-store'`, but `createCart` passes no
options, so its request has no cache directive. -/
theorem C1_mutation_cache_no_store {κ γ : Type} (cfg : Config) (reshapeCart : κ → γ)
    (fetch : HttpRequest → FetchResult κ) (cartId : String)
    (addLines : List AddLine) (updLines : List UpdateLine) (lineIds : List String) :
    ((addToCart cfg reshapeCart cartId addLines fetch).1.map HttpRequest.cache
      = [some "no-store"]) ∧
    ((removeFromCart cfg reshapeCart cartId lineIds fetch).1.map HttpRequest.cache
      = [some "no-store"]) ∧
    ((updateCart cfg reshapeCart cartId updLines fetch).1.map HttpRequest.cache
      = [some "no-store"]) ∧
    ((createCart cfg reshapeCart fetch).1.map HttpRequest.cache = [none]) :=
  ⟨rfl, rfl, rfl, rfl⟩

/-- C4 counterexample: the empty string is a defined cartId, yet
`getCart some-empty` issues no GET (the claim demands exactly one) and
resolves to `undefined`. -/
theorem C4_counterexample :
    ((getCart cfgEx idUnit (some "") "USD" fetchUnitOk).1.length ≠ 1) ∧
    ((getCart cfgEx idUnit (some "") "USD" fetchUnitOk).2 = Except.ok none) :=
  ⟨by decide, rfl⟩

/-- C4 (amended): for an absent cartId `getCart` resolves to `undefined`
without any network call; for every defined non-empty cartId it issues
exactly one GET to `{apiUrl}/v1/carts/{cartId}` with the currency and token
parameters and `cache: 'no-store'`, returning the reshaped body on success
(the empty string short-circuits like an absent id, per C10). -/
theorem C4_getCart_short_circuit {κ γ : Type} (cfg : Config)
    (reshapeCart : κ → γ) (currency : String)
    (fetch : HttpRequest → FetchResult κ) (cartId : String) (s : Nat) (b : κ)
    (hne : cartId ≠ "") :
    (getCart cfg reshapeCart none currency fetch = ([], Except.ok none)) ∧
    ((getCart cfg reshapeCart (some cartId) currency fetch).1.length = 1) ∧
    ((getCart cfg reshapeCart (some cartId) currency fetch).1
      = [HttpRequest.mk (cfg.apiUrl ++ "/v1/carts/" ++ cartId)
          [("currency", currency), ("storefront_token", cfg.storefrontToken)]
          "GET" (some "no-store") [("Content-Type", "application/json")] none]) ∧
    ((getCart cfg reshapeCart (some cartId) currency
        (fun _ => FetchResult.ok s b)).2 = Except.ok (some (reshapeCart b))) := by
  have hf : isFalsyString (some cartId) = false := by
    simpa [isFalsyString] using hne
  refine ⟨rfl, ?_, ?_, ?_⟩ <;>
    simp [getCart, hf, fourthwallGet, appendParams, mergeAssoc, noStore,
      QueryValue.render, RequestInit.empty, Except.map]

/-- C4 witness: the amended statement instantiated at cartId `cart1`. -/
theorem C4_witness :
    (getCart cfgEx idUnit none "USD" fetchUnitOk = ([], Except.ok none)) ∧
    ((getCart cfgEx idUnit (some "cart1") "USD" fetchUnitOk).1.length = 1) ∧
    ((getCart cfgEx idUnit (some "cart1") "USD" fetchUnitOk).1
      = [HttpRequest.mk (cfgEx.apiUrl ++ "/v1/carts/" ++ "cart1")
          [("currency", "USD"), ("storefront_token", cfgEx.storefrontToken)]
          "GET" (some "no-store") [("Content-Type", "application/json")] none]) ∧
    ((getCart cfgEx idUnit (some "cart1") "USD"
        (fun _ => FetchResult.ok 200 ())).2 = Except.ok (some (idUnit ()))) :=
  C4_getCart_short_circuit cfgEx idUnit "USD" fetchUnitOk "cart1" 200 () (by decide)

/-- C3: under a failing transport (network or JSON-parse failure), every
GET-based operation fails with the thrown `{error, url}` object carrying
the original cause and the requested resource URL; every POST-based
operation fails with `{error, url, data}` additionally carrying the
outgoing payload; and each operation issues exactly one request — no
retry. -/
theorem C3_transport_error {π ρ κ γ : Type} (cfg : Config) (cause : String)
    (reshapeProducts : List π → List ρ) (reshapeProduct : π → Option ρ)
    (reshapeCart : κ → γ)
    (collection currency handle : String) (limit : Option Int)
    (cartId : String) (addLines : List AddLine) (updLines : List UpdateLine)
    (lineIds : List String) (hne : cartId ≠ "") :
    ((getCollections cfg (errFetch CollectionsBody cause)).1.length = 1) ∧
    ((getCollections cfg (errFetch CollectionsBody cause)).2
      = Except.error (GetThrow.mk cause
          (cfg.apiUrl ++ "/api/public/v1.0/collections"))) ∧
    ((getCollectionProducts cfg reshapeProducts collection currency limit
        (errFetch (ProductsBody π) cause)).1.length = 1) ∧
    ((getCollectionProducts cfg reshapeProducts collection currency limit
        (errFetch (ProductsBody π) cause)).2.2
      = Except.error (GetThrow.mk cause
          (cfg.apiUrl ++ "/v1/collections/" ++ collection ++ "/products"))) ∧
    ((getProduct cfg reshapeProduct handle currency (errFetch π cause)).1.length
      = 1) ∧
    ((getProduct cfg reshapeProduct handle currency (errFetch π cause)).2
      = Except.error (GetThrow.mk cause
          (cfg.apiUrl ++ "/v1/products/" ++ handle))) ∧
    ((getCart cfg reshapeCart (some cartId) currency (errFetch κ cause)).1.length
      = 1) ∧
    ((getCart cfg reshapeCart (some cartId) currency (errFetch κ cause)).2
      = Except.error (GetThrow.mk cause (cfg.apiUrl ++ "/v1/carts/" ++ cartId))) ∧
    ((createCart cfg reshapeCart (errFetch κ cause)).1.length = 1) ∧
    ((createCart cfg reshapeCart (errFetch κ cause)).2
      = Except.error (PostThrow.mk cause (cfg.apiUrl ++ "/v1/carts")
          (PostBody.mk []))) ∧
    ((addToCart cfg reshapeCart cartId addLines (errFetch κ cause)).1.length = 1) ∧
    ((addToCart cfg reshapeCart cartId addLines (errFetch κ cause)).2
      = Except.error (PostThrow.mk cause
          (cfg.apiUrl ++ "/v1/carts/" ++ cartId ++ "/add")
          (PostBody.mk (addLines.map
            (fun line => PostItem.mk line.merchandiseId (some line.quantity)))))) ∧
    ((removeFromCart cfg reshapeCart cartId lineIds (errFetch κ cause)).1.length
      = 1) ∧
    ((removeFromCart cfg reshapeCart cartId lineIds (errFetch κ cause)).2
      = Except.error (PostThrow.mk cause
          (cfg.apiUrl ++ "/v1/carts/" ++ cartId ++ "/remove")
          (PostBody.mk (lineIds.map (fun id => PostItem.mk id none))))) ∧
    ((updateCart cfg reshapeCart cartId updLines (errFetch κ cause)).1.length
      = 1) ∧
    ((updateCart cfg reshapeCart cartId updLines (errFetch κ cause)).2
      = Except.error (PostThrow.mk cause
          (cfg.apiUrl ++ "/v1/carts/" ++ cartId ++ "/change")
          (PostBody.mk (updLines.map
            (fun line => PostItem.mk line.merchandiseId (some line.quantity)))))) := by
  have hf : isFalsyString (some cartId) = false := by
    simpa [isFalsyString] using hne
  refine ⟨rfl, rfl, rfl, rfl, rfl, rfl, ?_, ?_, rfl, rfl, rfl, rfl, rfl, rfl,
      rfl, rfl⟩ <;>
    simp [getCart, hf, fourthwallGet, errFetch, Except.map]

/-- C3 witness: the transport-error theorem instantiated at concrete inputs,
shown here for the GET-based `getCart` and the POST-based `createCart`. -/
theorem C3_witness :
    ("cart9" ≠ "") ∧
    ((getCart cfgEx idUnit (some "cart9") "USD" (errFetch Unit "boom")).2
      = Except.error (GetThrow.mk "boom"
          (cfgEx.apiUrl ++ "/v1/carts/" ++ "cart9"))) ∧
    ((createCart cfgEx idUnit (errFetch Unit "boom")).2
      = Except.error (PostThrow.mk "boom" (cfgEx.apiUrl ++ "/v1/carts")
          (PostBody.mk []))) := by
  have h := @C3_transport_error Unit Unit Unit Unit cfgEx "boom"
    (fun _ => []) (fun _ => none) idUnit "tees" "USD" "prod" none "cart9"
    [] [] [] (by decide)
  exact ⟨by decide, h.2.2.2.2.2.2.2.1, h.2.2.2.2.2.2.2.2.2.1⟩

end Fourthwall
